import Mathlib

/-!
Shallow embedding of the two form components of this repository:
`StudentManagementModal` (teacher student form) and `PathEditor`
(thematic-path canvas editor).  Event handlers are modelled as pure
functions on explicit component state; the injected asynchronous save
is modelled by a `SaveOutcome` argument describing how the returned
promise settles (a rejection carries `some msg` when the reason is an
`Error` with message `msg`, `none` for a non-`Error` reason).
Pixel and percentage coordinates are rationals; JavaScript strings are
modelled as their character sequences.
-/

namespace KokoroQuest

/-- JavaScript strings, modelled as character sequences. -/
abbrev JSString := List Char

/-- JavaScript `s.trim()`: strip leading and trailing whitespace. -/
def jsTrim (s : JSString) : JSString :=
  ((s.dropWhile Char.isWhitespace).reverse.dropWhile Char.isWhitespace).reverse

/-- JavaScript `s.includes(c)` for a single-character needle. -/
def jsIncludes (s : JSString) (c : Char) : Bool :=
  s.contains c

/-- Outcome of one invocation of an injected async save function. -/
inductive SaveOutcome where
  | success : SaveOutcome
  | failure : Option JSString → SaveOutcome
deriving DecidableEq

namespace StudentModal

/-- The local draft held in `formData` of `StudentManagementModal`. -/
structure StudentDraft where
  name : JSString
  email : JSString
  parentEmail : JSString
deriving DecidableEq

/-- The object passed to `onSave`: the spread of `formData` plus the injected
`classId` (`{...formData, classId}`). -/
structure StudentSavePayload where
  name : JSString
  email : JSString
  parentEmail : JSString
  classId : JSString
deriving DecidableEq

/-- Component state of `StudentManagementModal`: the draft, the inline error
message, and the submission-in-progress flag. -/
structure ModalState where
  formData : StudentDraft
  error : Option JSString
  isSubmitting : Bool
deriving DecidableEq

/-- The three early-return validation checks at the top of `handleSubmit`,
in source order; returns the first error message, `none` when all pass. -/
def validate (f : StudentDraft) : Option JSString :=
  if jsTrim f.name = [] then
    some "Student name is required".data
  else if f.email ≠ [] ∧ ¬ (jsIncludes f.email '@') then
    some "Please enter a valid email address".data
  else if f.parentEmail ≠ [] ∧ ¬ (jsIncludes f.parentEmail '@') then
    some "Please enter a valid parent email address".data
  else
    none

/-- Result of one run of `handleSubmit`: the new component state, the payload
passed to `onSave` when it was invoked, and whether `onClose` was called. -/
structure SubmitResult where
  state : ModalState
  savePayload : Option StudentSavePayload
  closed : Bool
deriving DecidableEq

/-- `handleSubmit` of `StudentManagementModal`: validation early-returns set
the error and stop; otherwise `isSubmitting` is set, `onSave` is awaited with
`{...formData, classId}`, `onClose` runs on resolution, the `catch` branch
stores `err.message` (or the fallback) and the `finally` branch clears
`isSubmitting`. -/
def handleSubmit (s : ModalState) (classId : JSString) (outcome : SaveOutcome) :
    SubmitResult :=
  match validate s.formData with
  | some msg =>
    { state := { s with error := some msg }, savePayload := none, closed := false }
  | none =>
    let payload : StudentSavePayload :=
      { name := s.formData.name, email := s.formData.email,
        parentEmail := s.formData.parentEmail, classId := classId }
    match outcome with
    | .success =>
      { state := { s with error := none, isSubmitting := false },
        savePayload := some payload, closed := true }
    | .failure msg =>
      { state := { s with error := some (msg.getD "Failed to save student".data),
                          isSubmitting := false },
        savePayload := some payload, closed := false }

/-- A submit trigger delivered to the rendered form.  The submit control is
rendered with `disabled={isSubmitting}`; a disabled default button blocks
both its click and the form's implicit submission, so a trigger arriving
while a save is outstanding performs nothing. -/
def submitEvent (s : ModalState) (classId : JSString) (outcome : SaveOutcome) :
    SubmitResult :=
  if s.isSubmitting then
    { state := s, savePayload := none, closed := false }
  else
    handleSubmit s classId outcome

end StudentModal

/-- A milestone position in percentage coordinates. -/
structure Position where
  x : ℚ
  y : ℚ
deriving DecidableEq

/-- Milestone progress status. -/
inductive MilestoneStatus where
  | locked : MilestoneStatus
  | unlocked : MilestoneStatus
  | completed : MilestoneStatus
deriving DecidableEq

/-- A milestone marker of a thematic path. -/
structure Milestone where
  id : JSString
  position : Position
  activityId : JSString
  status : MilestoneStatus
deriving DecidableEq

/-- Both coordinates lie within the canvas percentage range. -/
def posInRange (p : Position) : Prop :=
  0 ≤ p.x ∧ p.x ≤ 100 ∧ 0 ≤ p.y ∧ p.y ≤ 100

instance (p : Position) : Decidable (posInRange p) := by
  unfold posInRange; infer_instance

namespace PathEditor

/-- The bounding client rect of the canvas element. -/
structure Rect where
  left : ℚ
  top : ℚ
  width : ℚ
  height : ℚ
deriving DecidableEq

/-- The `formData` draft of `PathEditor`. -/
structure PathFormData where
  name : JSString
  theme : JSString
  backgroundImage : JSString
  milestones : List Milestone
deriving DecidableEq

/-- Component state of `PathEditor`.  `canvas` is `canvasRef.current` as a
bounding rect, `none` when the ref is unavailable. -/
structure State where
  formData : PathFormData
  selectedMilestone : Option Milestone
  isSubmitting : Bool
  error : Option JSString
  isDragging : Bool
  canvas : Option Rect
deriving DecidableEq

/-- `handleAddMilestone`, with the `Date.now()` clock reading passed
explicitly: appends a milestone with id `now.toString()`, position (50,50),
empty `activityId` and status `locked`. -/
def handleAddMilestone (s : State) (now : Nat) : State :=
  let newMilestone : Milestone :=
    { id := (toString now).data, position := { x := 50, y := 50 },
      activityId := [], status := .locked }
  { s with formData :=
      { s.formData with milestones := s.formData.milestones ++ [newMilestone] } }

/-- Folding `handleAddMilestone` over a list of clock readings: one add
action per reading, in order. -/
def addMilestones (s : State) (times : List Nat) : State :=
  times.foldl handleAddMilestone s

/-- `handleMilestoneMouseDown`: selects the pressed milestone and starts a
drag session. -/
def handleMilestoneMouseDown (s : State) (m : Milestone) : State :=
  { s with selectedMilestone := some m, isDragging := true }

/-- `handleMouseMove`, with the pointer's client coordinates passed
explicitly.  Early-returns unless a drag is active, a milestone is selected
and the canvas ref is available; otherwise maps over the milestones,
replacing the position of those whose id matches the selection by the
clamped fraction of the canvas bounding rect. -/
def handleMouseMove (s : State) (clientX clientY : ℚ) : State :=
  match s.isDragging, s.selectedMilestone, s.canvas with
  | true, some sel, some rect =>
    let x := (clientX - rect.left) / rect.width * 100
    let y := (clientY - rect.top) / rect.height * 100
    let clampedX := max 0 (min 100 x)
    let clampedY := max 0 (min 100 y)
    { s with formData :=
        { s.formData with milestones :=
            s.formData.milestones.map fun m =>
              if m.id = sel.id then
                { m with position := { x := clampedX, y := clampedY } }
              else m } }
  | _, _, _ => s

/-- `handleMouseUp` (installed as a document-level listener): ends the drag
session. -/
def handleMouseUp (s : State) : State :=
  { s with isDragging := false }

/-- The Remove Selected button's `onClick`: filters out milestones whose id
equals the selection's id and clears the selection.  The button is only
rendered while a milestone is selected, so the event does nothing when the
selection is empty. -/
def removeSelected (s : State) : State :=
  match s.selectedMilestone with
  | none => s
  | some sel =>
    { s with
      formData := { s.formData with milestones :=
          s.formData.milestones.filter fun m => !(m.id == sel.id) },
      selectedMilestone := none }

/-- Result of one run of `PathEditor.handleSubmit`. -/
structure SubmitResult where
  state : State
  savePayload : Option PathFormData
  closed : Bool
deriving DecidableEq

/-- `handleSubmit` of `PathEditor`: a single combined required-fields check
on trimmed name and theme, then `onSave(formData)` is awaited, the `catch`
branch stores `err.message` (or the fallback) and the `finally` branch
clears `isSubmitting`.  Nothing is invoked to close the editor on success. -/
def handleSubmit (s : State) (outcome : SaveOutcome) : SubmitResult :=
  if jsTrim s.formData.name = [] ∨ jsTrim s.formData.theme = [] then
    { state := { s with error := some "Please fill in all required fields".data },
      savePayload := none, closed := false }
  else
    match outcome with
    | .success =>
      { state := { s with error := none, isSubmitting := false },
        savePayload := some s.formData, closed := false }
    | .failure msg =>
      { state := { s with error := some (msg.getD "Failed to save path".data),
                          isSubmitting := false },
        savePayload := some s.formData, closed := false }

/-- A submit trigger delivered to the rendered form; the submit control is
rendered with `disabled={isSubmitting}`, so a trigger arriving while a save
is outstanding performs nothing. -/
def submitEvent (s : State) (outcome : SaveOutcome) : SubmitResult :=
  if s.isSubmitting then
    { state := s, savePayload := none, closed := false }
  else
    handleSubmit s outcome

end PathEditor

/-- Clamping with `max 0 (min 100 ·)` lands in the canvas percentage range. -/
theorem clamp_posInRange (v w : ℚ) :
    posInRange { x := max 0 (min 100 v), y := max 0 (min 100 w) } :=
  ⟨le_max_left _ _, max_le (by norm_num) (min_le_left _ _),
   le_max_left _ _, max_le (by norm_num) (min_le_left _ _)⟩

/-- Length of the kept part of a filter, via the count of the dropped part. -/
theorem length_filter_not {α : Type} (p : α → Bool) (l : List α) :
    (l.filter fun a => !p a).length = l.length - l.countP p := by
  induction l with
  | nil => rfl
  | cons a l ih =>
    have hle : l.countP p ≤ l.length := l.countP_le_length p
    by_cases h : p a = true
    · simp [List.filter_cons, List.countP_cons, h, ih]
    · simp [List.filter_cons, List.countP_cons, h, ih]
      omega

/-- C1: while a milestone is selected, a drag is active and the canvas ref is
available, each pointer move sets the selection's position to the pointer's
offset inside the canvas rect as a percentage, clamped into [0,100] on both
axes; any milestone position an event produces is in range whatever the
pointer coordinates, in-range positions are preserved, and on a 400×300
canvas at the origin a pointer at (440,150) puts the selected milestone at
(100,50). -/
theorem C1_drag_position_clamped :
    (∀ (s : PathEditor.State) (sel : Milestone) (rect : PathEditor.Rect)
        (cx cy : ℚ),
        s.isDragging = true → s.selectedMilestone = some sel →
        s.canvas = some rect →
        (PathEditor.handleMouseMove s cx cy).formData.milestones
          = s.formData.milestones.map (fun m =>
              if m.id = sel.id then
                { m with position :=
                    { x := max 0 (min 100 ((cx - rect.left) / rect.width * 100)),
                      y := max 0 (min 100 ((cy - rect.top) / rect.height * 100)) } }
              else m))
    ∧ (∀ (s : PathEditor.State) (cx cy : ℚ),
        ∀ m ∈ (PathEditor.handleMouseMove s cx cy).formData.milestones,
          m ∈ s.formData.milestones ∨ posInRange m.position)
    ∧ (∀ (s : PathEditor.State) (cx cy : ℚ),
        (∀ m ∈ s.formData.milestones, posInRange m.position) →
        ∀ m ∈ (PathEditor.handleMouseMove s cx cy).formData.milestones,
          posInRange m.position)
    ∧ (PathEditor.handleMouseMove
          { formData := { name := "P".data, theme := "T".data,
                          backgroundImage := [],
                          milestones := [⟨"M".data, ⟨50, 50⟩, [], .locked⟩] },
            selectedMilestone := some ⟨"M".data, ⟨50, 50⟩, [], .locked⟩,
            isSubmitting := false, error := none, isDragging := true,
            canvas := some ⟨0, 0, 400, 300⟩ } 440 150).formData.milestones
        = [⟨"M".data, ⟨100, 50⟩, [], .locked⟩] := by
  have hchanged : ∀ (s : PathEditor.State) (cx cy : ℚ),
      ∀ m ∈ (PathEditor.handleMouseMove s cx cy).formData.milestones,
        m ∈ s.formData.milestones ∨ posInRange m.position := by
    intro s cx cy m hm
    rcases hd : s.isDragging with _ | _ <;>
      rcases hs : s.selectedMilestone with _ | sel <;>
        rcases hc : s.canvas with _ | rect <;>
          simp only [PathEditor.handleMouseMove, hd, hs, hc] at hm <;>
            try exact Or.inl hm
    rw [List.mem_map] at hm
    obtain ⟨a, ha, rfl⟩ := hm
    by_cases hid : a.id = sel.id
    · simp only [hid, if_pos rfl]
      exact Or.inr (clamp_posInRange _ _)
    · simp only [if_neg hid]
      exact Or.inl ha
  refine ⟨?_, hchanged, ?_, ?_⟩
  · intro s sel rect cx cy hd hs hc
    simp [PathEditor.handleMouseMove, hd, hs, hc]
  · intro s cx cy hall m hm
    rcases hchanged s cx cy m hm with h | h
    · exact hall m h
    · exact h
  · simp only [PathEditor.handleMouseMove]
    norm_num

/-- Witness for C1: the update equation instantiated at the 400×300 canvas
scenario. -/
theorem C1_drag_position_clamped_witness :
    (PathEditor.handleMouseMove
        { formData := { name := "P".data, theme := "T".data,
                        backgroundImage := [],
                        milestones := [⟨"M".data, ⟨50, 50⟩, [], .locked⟩] },
          selectedMilestone := some ⟨"M".data, ⟨50, 50⟩, [], .locked⟩,
          isSubmitting := false, error := none, isDragging := true,
          canvas := some ⟨0, 0, 400, 300⟩ } 440 150).formData.milestones
      = [⟨"M".data, ⟨50, 50⟩, [], .locked⟩].map (fun m =>
          if m.id = ("M".data : JSString) then
            { m with position :=
                { x := max 0 (min 100 (((440 : ℚ) - 0) / 400 * 100)),
                  y := max 0 (min 100 (((150 : ℚ) - 0) / 300 * 100)) } }
          else m) :=
  C1_drag_position_clamped.1 _ ⟨"M".data, ⟨50, 50⟩, [], .locked⟩
    ⟨0, 0, 400, 300⟩ 440 150 rfl rfl rfl

/-- C2: student draft validation runs in fixed order — name non-empty after
trimming, then email must contain an at sign when present, then the same for
the parent email — and short-circuits on the first failure: the corresponding
error is produced, the save is never invoked, the draft is preserved; for the
draft {name:"Ana", email:"", parentEmail:"bad"} the email check is skipped
and validation fails with the parent-email error. -/
theorem C2_student_validation_order :
    (∀ f : StudentModal.StudentDraft, jsTrim f.name = [] →
        StudentModal.validate f = some "Student name is required".data)
    ∧ (∀ f : StudentModal.StudentDraft, jsTrim f.name ≠ [] → f.email ≠ [] →
        jsIncludes f.email '@' = false →
        StudentModal.validate f = some "Please enter a valid email address".data)
    ∧ (∀ f : StudentModal.StudentDraft, jsTrim f.name ≠ [] →
        (f.email = [] ∨ jsIncludes f.email '@' = true) →
        f.parentEmail ≠ [] → jsIncludes f.parentEmail '@' = false →
        StudentModal.validate f
          = some "Please enter a valid parent email address".data)
    ∧ (∀ (s : StudentModal.ModalState) (cid : JSString) (o : SaveOutcome)
        (msg : JSString),
        StudentModal.validate s.formData = some msg →
        (StudentModal.handleSubmit s cid o).savePayload = none
        ∧ (StudentModal.handleSubmit s cid o).state.formData = s.formData
        ∧ (StudentModal.handleSubmit s cid o).state.error = some msg
        ∧ (StudentModal.handleSubmit s cid o).closed = false)
    ∧ StudentModal.validate ⟨"Ana".data, [], "bad".data⟩
        = some "Please enter a valid parent email address".data := by
  refine ⟨?_, ?_, ?_, ?_, ?_⟩
  · intro f h
    simp [StudentModal.validate, h]
  · intro f h1 h2 h3
    simp [StudentModal.validate, h1, h2, h3]
  · intro f h1 h2 h3 h4
    rcases h2 with h2 | h2 <;> simp [StudentModal.validate, h1, h2, h3, h4]
  · intro s cid o msg h
    simp [StudentModal.handleSubmit, h]
  · decide

/-- Witness for C2: the name check fires on an all-empty draft. -/
theorem C2_student_validation_order_witness :
    StudentModal.validate ⟨[], [], []⟩ = some "Student name is required".data :=
  C2_student_validation_order.1 ⟨[], [], []⟩ (by decide)

/-- C3: while a save is outstanding the in-progress flag is set and a submit
trigger arriving at either component is ignored — the state is unchanged, no
save is invoked and nothing closes — so no two saves from the same component
overlap. -/
theorem C3_inflight_submit_ignored :
    (∀ (s : StudentModal.ModalState) (cid : JSString) (o : SaveOutcome),
        s.isSubmitting = true →
        StudentModal.submitEvent s cid o
          = { state := s, savePayload := none, closed := false })
    ∧ (∀ (s : PathEditor.State) (o : SaveOutcome),
        s.isSubmitting = true →
        PathEditor.submitEvent s o
          = { state := s, savePayload := none, closed := false }) := by
  constructor
  · intro s cid o h
    simp [StudentModal.submitEvent, h]
  · intro s o h
    simp [PathEditor.submitEvent, h]

/-- Witness for C3: a concrete in-flight modal state ignores a new trigger. -/
theorem C3_inflight_submit_ignored_witness :
    StudentModal.submitEvent ⟨⟨"Ana".data, [], []⟩, none, true⟩ [] .success
      = { state := ⟨⟨"Ana".data, [], []⟩, none, true⟩,
          savePayload := none, closed := false } :=
  C3_inflight_submit_ignored.1 ⟨⟨"Ana".data, [], []⟩, none, true⟩ [] .success rfl

/-- C4: when the injected save rejects, each component surfaces the
rejection's message when available and otherwise its fixed fallback string,
the draft is unchanged and no close happens; a rejection with message
"network down" shows exactly "network down" with the draft intact. -/
theorem C4_save_rejection_surfaced :
    (∀ (s : StudentModal.ModalState) (cid : JSString) (msg : JSString),
        StudentModal.validate s.formData = none →
        (StudentModal.handleSubmit s cid (.failure (some msg))).state.error = some msg
        ∧ (StudentModal.handleSubmit s cid (.failure (some msg))).state.formData
            = s.formData
        ∧ (StudentModal.handleSubmit s cid (.failure (some msg))).closed = false)
    ∧ (∀ (s : StudentModal.ModalState) (cid : JSString),
        StudentModal.validate s.formData = none →
        (StudentModal.handleSubmit s cid (.failure none)).state.error
          = some "Failed to save student".data)
    ∧ (∀ (s : PathEditor.State) (msg : JSString),
        jsTrim s.formData.name ≠ [] → jsTrim s.formData.theme ≠ [] →
        (PathEditor.handleSubmit s (.failure (some msg))).state.error = some msg
        ∧ (PathEditor.handleSubmit s (.failure (some msg))).state.formData
            = s.formData
        ∧ (PathEditor.handleSubmit s (.failure (some msg))).closed = false)
    ∧ (∀ s : PathEditor.State,
        jsTrim s.formData.name ≠ [] → jsTrim s.formData.theme ≠ [] →
        (PathEditor.handleSubmit s (.failure none)).state.error
          = some "Failed to save path".data)
    ∧ ((StudentModal.handleSubmit ⟨⟨"Ana".data, [], []⟩, none, false⟩ []
          (.failure (some "network down".data))).state.error
            = some "network down".data
       ∧ (StudentModal.handleSubmit ⟨⟨"Ana".data, [], []⟩, none, false⟩ []
          (.failure (some "network down".data))).state.formData
            = ⟨"Ana".data, [], []⟩
       ∧ (StudentModal.handleSubmit ⟨⟨"Ana".data, [], []⟩, none, false⟩ []
          (.failure (some "network down".data))).closed = false) := by
  refine ⟨?_, ?_, ?_, ?_, ?_⟩
  · intro s cid msg h
    simp [StudentModal.handleSubmit, h]
  · intro s cid h
    simp [StudentModal.handleSubmit, h, Option.getD]
  · intro s msg h1 h2
    simp [PathEditor.handleSubmit, h1, h2]
  · intro s h1 h2
    simp [PathEditor.handleSubmit, h1, h2, Option.getD]
  · decide

/-- Witness for C4: a valid draft plus a rejection with message "x". -/
theorem C4_save_rejection_surfaced_witness :
    (StudentModal.handleSubmit ⟨⟨"Bo".data, [], []⟩, none, false⟩ []
        (.failure (some "x".data))).state.error = some "x".data
    ∧ (StudentModal.handleSubmit ⟨⟨"Bo".data, [], []⟩, none, false⟩ []
        (.failure (some "x".data))).state.formData = ⟨"Bo".data, [], []⟩
    ∧ (StudentModal.handleSubmit ⟨⟨"Bo".data, [], []⟩, none, false⟩ []
        (.failure (some "x".data))).closed = false :=
  C4_save_rejection_surfaced.1 ⟨⟨"Bo".data, [], []⟩, none, false⟩ [] "x".data
    (by decide)

/-- C9: a student draft that passes validation is saved with exactly the
draft's name, email and parent email plus the injected class identifier, and
a successful resolution triggers the close callback; the concrete "Ana"
scenario produces exactly that payload and then closes. -/
theorem C9_student_save_payload :
    (∀ (s : StudentModal.ModalState) (cid : JSString),
        StudentModal.validate s.formData = none →
        (StudentModal.handleSubmit s cid .success).savePayload
          = some ⟨s.formData.name, s.formData.email, s.formData.parentEmail, cid⟩
        ∧ (StudentModal.handleSubmit s cid .success).closed = true)
    ∧ ((StudentModal.handleSubmit
          ⟨⟨"Ana".data, "a@b.com".data, "p@b.com".data⟩, none, false⟩
          "C1".data .success).savePayload
        = some ⟨"Ana".data, "a@b.com".data, "p@b.com".data, "C1".data⟩
       ∧ (StudentModal.handleSubmit
          ⟨⟨"Ana".data, "a@b.com".data, "p@b.com".data⟩, none, false⟩
          "C1".data .success).closed = true) := by
  constructor
  · intro s cid h
    simp [StudentModal.handleSubmit, h]
  · decide

/-- Witness for C9: the first part applied to the "Ana" draft. -/
theorem C9_student_save_payload_witness :
    (StudentModal.handleSubmit
        ⟨⟨"Ana".data, "a@b.com".data, "p@b.com".data⟩, none, false⟩
        "C1".data .success).savePayload
      = some ⟨"Ana".data, "a@b.com".data, "p@b.com".data, "C1".data⟩
    ∧ (StudentModal.handleSubmit
        ⟨⟨"Ana".data, "a@b.com".data, "p@b.com".data⟩, none, false⟩
        "C1".data .success).closed = true :=
  C9_student_save_payload.1
    ⟨⟨"Ana".data, "a@b.com".data, "p@b.com".data⟩, none, false⟩ "C1".data
    (by decide)

/-- C5: a pointer move during a drag touches only the selected milestone's
position — every other milestone and every other field of the matching
milestone (identifier, activity reference, status) as well as the rest of the
component state are unchanged — and it is a no-op when no drag is active, no
milestone is selected or the canvas ref is unavailable. -/
theorem C5_mousemove_frame :
    (∀ (s : PathEditor.State) (cx cy : ℚ),
        s.isDragging = false ∨ s.selectedMilestone = none ∨ s.canvas = none →
        PathEditor.handleMouseMove s cx cy = s)
    ∧ (∀ (s : PathEditor.State) (cx cy : ℚ),
        (PathEditor.handleMouseMove s cx cy).selectedMilestone
            = s.selectedMilestone
        ∧ (PathEditor.handleMouseMove s cx cy).isDragging = s.isDragging
        ∧ (PathEditor.handleMouseMove s cx cy).isSubmitting = s.isSubmitting
        ∧ (PathEditor.handleMouseMove s cx cy).error = s.error
        ∧ (PathEditor.handleMouseMove s cx cy).canvas = s.canvas
        ∧ (PathEditor.handleMouseMove s cx cy).formData.name = s.formData.name
        ∧ (PathEditor.handleMouseMove s cx cy).formData.theme = s.formData.theme
        ∧ (PathEditor.handleMouseMove s cx cy).formData.backgroundImage
            = s.formData.backgroundImage)
    ∧ (∀ (s : PathEditor.State) (cx cy : ℚ) (sel : Milestone) (i : Nat)
        (m : Milestone),
        s.selectedMilestone = some sel →
        s.formData.milestones[i]? = some m →
        (m.id ≠ sel.id →
          (PathEditor.handleMouseMove s cx cy).formData.milestones[i]? = some m)
        ∧ (∀ m' : Milestone,
            (PathEditor.handleMouseMove s cx cy).formData.milestones[i]?
              = some m' →
            m'.id = m.id ∧ m'.activityId = m.activityId
              ∧ m'.status = m.status)) := by
  refine ⟨?_, ?_, ?_⟩
  · intro s cx cy h
    rcases hd : s.isDragging with _ | _ <;>
      rcases hs : s.selectedMilestone with _ | sel <;>
        rcases hc : s.canvas with _ | rect <;>
          simp only [PathEditor.handleMouseMove, hd, hs, hc]
    rcases h with h | h | h <;> simp_all
  · intro s cx cy
    rcases hd : s.isDragging with _ | _ <;>
      rcases hs : s.selectedMilestone with _ | sel <;>
        rcases hc : s.canvas with _ | rect <;>
          simp [PathEditor.handleMouseMove, hd, hs, hc]
  · intro s cx cy sel i m hs hm
    rcases hd : s.isDragging with _ | _ <;>
      rcases hc : s.canvas with _ | rect <;>
        simp only [PathEditor.handleMouseMove, hd, hs, hc]
    case refine_3.true.some =>
      rw [List.getElem?_map, hm]
      constructor
      · intro hid
        simp [Option.map_some', if_neg hid]
      · intro m' hm'
        rw [Option.map_some'] at hm'
        by_cases hid : m.id = sel.id
        · rw [if_pos hid] at hm'
          injection hm' with h
          subst h
          exact ⟨rfl, rfl, rfl⟩
        · rw [if_neg hid] at hm'
          injection hm' with h
          subst h
          exact ⟨rfl, rfl, rfl⟩
    all_goals
      rw [hm]
      exact ⟨fun _ => rfl, fun m' hm' => by
        cases hm'
        exact ⟨rfl, rfl, rfl⟩⟩

/-- Witness for C5: a pointer move with no active drag is a no-op. -/
theorem C5_mousemove_frame_witness :
    PathEditor.handleMouseMove
        ⟨⟨"P".data, "T".data, [], []⟩, none, false, none, false, none⟩ 3 4
      = ⟨⟨"P".data, "T".data, [], []⟩, none, false, none, false, none⟩ :=
  C5_mousemove_frame.1
    ⟨⟨"P".data, "T".data, [], []⟩, none, false, none, false, none⟩ 3 4
    (Or.inl rfl)

/-- C6: with a selected milestone that occurs exactly once in the collection,
remove-selected shrinks the collection from N to N−1, keeps every milestone
with a different identifier unchanged (as a sublist, preserving order,
positions and statuses), and clears the selection; with no selection it is a
no-op. -/
theorem C6_remove_selected :
    (∀ s : PathEditor.State, s.selectedMilestone = none →
        PathEditor.removeSelected s = s)
    ∧ (∀ (s : PathEditor.State) (sel : Milestone),
        s.selectedMilestone = some sel →
        s.formData.milestones.countP (fun m => m.id == sel.id) = 1 →
        (PathEditor.removeSelected s).formData.milestones.length
          = s.formData.milestones.length - 1
        ∧ (PathEditor.removeSelected s).selectedMilestone = none
        ∧ (PathEditor.removeSelected s).formData.milestones.Sublist
            s.formData.milestones
        ∧ ∀ m ∈ s.formData.milestones, m.id ≠ sel.id →
            m ∈ (PathEditor.removeSelected s).formData.milestones) := by
  constructor
  · intro s h
    simp [PathEditor.removeSelected, h]
  · intro s sel hs hcount
    refine ⟨?_, ?_, ?_, ?_⟩
    · simp only [PathEditor.removeSelected, hs]
      rw [length_filter_not, hcount]
    · simp [PathEditor.removeSelected, hs]
    · simp only [PathEditor.removeSelected, hs]
      exact List.filter_sublist _
    · intro m hm hid
      simp only [PathEditor.removeSelected, hs]
      refine List.mem_filter.2 ⟨hm, ?_⟩
      simp [hid]

/-- Witness for C6: removing the single selected milestone empties a
one-element collection and clears the selection. -/
theorem C6_remove_selected_witness :
    (PathEditor.removeSelected
        ⟨⟨"P".data, "T".data, [], [⟨"1".data, ⟨50, 50⟩, [], .locked⟩]⟩,
          some ⟨"1".data, ⟨50, 50⟩, [], .locked⟩, false, none, false,
          none⟩).formData.milestones.length
      = ([⟨"1".data, ⟨50, 50⟩, [], .locked⟩] : List Milestone).length - 1
    ∧ (PathEditor.removeSelected
        ⟨⟨"P".data, "T".data, [], [⟨"1".data, ⟨50, 50⟩, [], .locked⟩]⟩,
          some ⟨"1".data, ⟨50, 50⟩, [], .locked⟩, false, none, false,
          none⟩).selectedMilestone = none
    ∧ (PathEditor.removeSelected
        ⟨⟨"P".data, "T".data, [], [⟨"1".data, ⟨50, 50⟩, [], .locked⟩]⟩,
          some ⟨"1".data, ⟨50, 50⟩, [], .locked⟩, false, none, false,
          none⟩).formData.milestones.Sublist
        [⟨"1".data, ⟨50, 50⟩, [], .locked⟩]
    ∧ ∀ m ∈ ([⟨"1".data, ⟨50, 50⟩, [], .locked⟩] : List Milestone),
        m.id ≠ ("1".data : JSString) →
        m ∈ (PathEditor.removeSelected
          ⟨⟨"P".data, "T".data, [], [⟨"1".data, ⟨50, 50⟩, [], .locked⟩]⟩,
            some ⟨"1".data, ⟨50, 50⟩, [], .locked⟩, false, none, false,
            none⟩).formData.milestones :=
  C6_remove_selected.2
    ⟨⟨"P".data, "T".data, [], [⟨"1".data, ⟨50, 50⟩, [], .locked⟩]⟩,
      some ⟨"1".data, ⟨50, 50⟩, [], .locked⟩, false, none, false, none⟩
    ⟨"1".data, ⟨50, 50⟩, [], .locked⟩ rfl (by decide)

/-- Counterexample to C7: two add actions whose `Date.now()` readings fall in
the same millisecond produce two milestones with the same identifier, so the
freshly generated identifier is not unique across rapid successive
additions. -/
theorem C7_add_milestone_counterexample :
    ¬ (((PathEditor.handleAddMilestone
          (PathEditor.handleAddMilestone
            ⟨⟨"P".data, "T".data, [], []⟩, none, false, none, false, none⟩
            1000)
          1000).formData.milestones.map Milestone.id).Nodup) := by
  decide

/-- C7 (amended): add-milestone appends a milestone whose identifier is the
decimal string of the `Date.now()` reading, with position (50,50), empty
activity reference and status locked, without selecting it; identifiers stay
unique provided the clock readings of a session's additions render to
pairwise distinct strings, and no other operation introduces a duplicate
identifier. -/
theorem C7_add_milestone_amended :
    (∀ (s : PathEditor.State) (now : Nat),
        (PathEditor.handleAddMilestone s now).formData.milestones
          = s.formData.milestones
            ++ [{ id := (toString now).data, position := { x := 50, y := 50 },
                  activityId := [], status := .locked }]
        ∧ (PathEditor.handleAddMilestone s now).selectedMilestone
            = s.selectedMilestone)
    ∧ (∀ (s : PathEditor.State) (times : List Nat),
        (PathEditor.addMilestones s times).formData.milestones.map Milestone.id
          = s.formData.milestones.map Milestone.id
            ++ times.map (fun t => (toString t).data))
    ∧ (∀ (s : PathEditor.State) (times : List Nat),
        (s.formData.milestones.map Milestone.id
          ++ times.map (fun t => (toString t).data)).Nodup →
        ((PathEditor.addMilestones s times).formData.milestones.map
            Milestone.id).Nodup)
    ∧ (∀ (s : PathEditor.State) (cx cy : ℚ),
        (PathEditor.handleMouseMove s cx cy).formData.milestones.map Milestone.id
          = s.formData.milestones.map Milestone.id)
    ∧ (∀ s : PathEditor.State,
        (s.formData.milestones.map Milestone.id).Nodup →
        ((PathEditor.removeSelected s).formData.milestones.map
            Milestone.id).Nodup) := by
  have hids : ∀ (s : PathEditor.State) (times : List Nat),
      (PathEditor.addMilestones s times).formData.milestones.map Milestone.id
        = s.formData.milestones.map Milestone.id
          ++ times.map (fun t => (toString t).data) := by
    intro s times
    induction times generalizing s with
    | nil => simp [PathEditor.addMilestones]
    | cons t ts ih =>
      have h1 : PathEditor.addMilestones s (t :: ts)
          = PathEditor.addMilestones (PathEditor.handleAddMilestone s t) ts := rfl
      rw [h1, ih]
      simp [PathEditor.handleAddMilestone]
  refine ⟨?_, hids, ?_, ?_, ?_⟩
  · intro s now
    exact ⟨rfl, rfl⟩
  · intro s times h
    rw [hids]
    exact h
  · intro s cx cy
    rcases hd : s.isDragging with _ | _ <;>
      rcases hs : s.selectedMilestone with _ | sel <;>
        rcases hc : s.canvas with _ | rect <;>
          simp only [PathEditor.handleMouseMove, hd, hs, hc]
    rw [List.map_map]
    apply List.map_congr_left
    intro a _
    by_cases hid : a.id = sel.id <;> simp [hid]
  · intro s h
    rcases hs : s.selectedMilestone with _ | sel
    · simpa [PathEditor.removeSelected, hs] using h
    · simp only [PathEditor.removeSelected, hs]
      exact ((List.filter_sublist _).map Milestone.id).nodup h

/-- Witness for C7 (amended): starting from an empty path, additions at clock
readings 1 and 2 keep identifiers unique. -/
theorem C7_add_milestone_amended_witness :
    ((PathEditor.addMilestones
        ⟨⟨"P".data, "T".data, [], []⟩, none, false, none, false, none⟩
        [1, 2]).formData.milestones.map Milestone.id).Nodup :=
  C7_add_milestone_amended.2.2.1
    ⟨⟨"P".data, "T".data, [], []⟩, none, false, none, false, none⟩ [1, 2]
    (by decide)

/-- Counterexample to C8: a valid path draft submitted with a successful save
does invoke the save with the draft, but the editor never notifies the caller
to close — unlike the student form, no close callback runs on success. -/
theorem C8_path_submit_counterexample :
    (PathEditor.handleSubmit
        ⟨⟨"A".data, "B".data, [], []⟩, none, false, none, false, none⟩
        .success).savePayload = some ⟨"A".data, "B".data, [], []⟩
    ∧ (PathEditor.handleSubmit
        ⟨⟨"A".data, "B".data, [], []⟩, none, false, none, false, none⟩
        .success).closed = false := by
  decide

/-- C8 (amended): a path submission with empty trimmed name or theme fails
with the single combined required-fields error and never invokes the save;
otherwise the save is invoked with the draft, a rejection surfaces its
message (or the fallback) with the draft intact, and on success only the
in-progress flag and error are cleared — the caller is not notified to
close. -/
theorem C8_path_submit_amended :
    (∀ (s : PathEditor.State) (o : SaveOutcome),
        jsTrim s.formData.name = [] ∨ jsTrim s.formData.theme = [] →
        PathEditor.handleSubmit s o
          = { state :=
                { s with error := some "Please fill in all required fields".data },
              savePayload := none, closed := false })
    ∧ (∀ s : PathEditor.State,
        jsTrim s.formData.name ≠ [] → jsTrim s.formData.theme ≠ [] →
        (PathEditor.handleSubmit s .success).savePayload = some s.formData
        ∧ (PathEditor.handleSubmit s .success).state.isSubmitting = false
        ∧ (PathEditor.handleSubmit s .success).state.error = none
        ∧ (PathEditor.handleSubmit s .success).state.formData = s.formData
        ∧ (PathEditor.handleSubmit s .success).closed = false)
    ∧ (∀ (s : PathEditor.State) (msg : Option JSString),
        jsTrim s.formData.name ≠ [] → jsTrim s.formData.theme ≠ [] →
        (PathEditor.handleSubmit s (.failure msg)).savePayload = some s.formData
        ∧ (PathEditor.handleSubmit s (.failure msg)).state.error
            = some (msg.getD "Failed to save path".data)
        ∧ (PathEditor.handleSubmit s (.failure msg)).state.formData = s.formData
        ∧ (PathEditor.handleSubmit s (.failure msg)).closed = false) := by
  refine ⟨?_, ?_, ?_⟩
  · intro s o h
    simp only [PathEditor.handleSubmit, if_pos h]
  · intro s h1 h2
    simp [PathEditor.handleSubmit, h1, h2]
  · intro s msg h1 h2
    simp [PathEditor.handleSubmit, h1, h2]

/-- Witness for C8 (amended): an empty draft fails the combined
required-fields check without invoking the save. -/
theorem C8_path_submit_amended_witness :
    PathEditor.handleSubmit
        ⟨⟨[], [], [], []⟩, none, false, none, false, none⟩ .success
      = { state := ⟨⟨[], [], [], []⟩, none, false,
            some "Please fill in all required fields".data, false, none⟩,
          savePayload := none, closed := false } := by
  have h := C8_path_submit_amended.1
    ⟨⟨[], [], [], []⟩, none, false, none, false, none⟩ .success
    (Or.inl (by decide))
  exact h

/-- C10: pointer-up clears only the dragging flag — the selection, the draft
(including all milestones), the error and the submitting flag survive — so a
subsequent remove-selected still deletes the milestone that was selected at
drag start; the selection itself only changes when another milestone is
pressed or the selected one is removed. -/
theorem C10_mouseup_keeps_selection :
    (∀ s : PathEditor.State,
        (PathEditor.handleMouseUp s).isDragging = false
        ∧ (PathEditor.handleMouseUp s).selectedMilestone = s.selectedMilestone
        ∧ (PathEditor.handleMouseUp s).formData = s.formData
        ∧ (PathEditor.handleMouseUp s).error = s.error
        ∧ (PathEditor.handleMouseUp s).isSubmitting = s.isSubmitting
        ∧ (PathEditor.handleMouseUp s).canvas = s.canvas)
    ∧ (∀ s : PathEditor.State,
        (PathEditor.removeSelected (PathEditor.handleMouseUp s)).formData
          = (PathEditor.removeSelected s).formData
        ∧ (PathEditor.removeSelected (PathEditor.handleMouseUp s)).selectedMilestone
          = (PathEditor.removeSelected s).selectedMilestone)
    ∧ (∀ (s : PathEditor.State) (cx cy : ℚ),
        (PathEditor.handleMouseMove s cx cy).selectedMilestone
          = s.selectedMilestone)
    ∧ (∀ (s : PathEditor.State) (n : Nat),
        (PathEditor.handleAddMilestone s n).selectedMilestone
          = s.selectedMilestone)
    ∧ (∀ (s : PathEditor.State) (m : Milestone),
        (PathEditor.handleMilestoneMouseDown s m).selectedMilestone = some m) := by
  refine ⟨?_, ?_, ?_, ?_, ?_⟩
  · intro s
    exact ⟨rfl, rfl, rfl, rfl, rfl, rfl⟩
  · intro s
    rcases hs : s.selectedMilestone with _ | sel <;>
      simp [PathEditor.removeSelected, PathEditor.handleMouseUp, hs]
  · intro s cx cy
    rcases hd : s.isDragging with _ | _ <;>
      rcases hs : s.selectedMilestone with _ | sel <;>
        rcases hc : s.canvas with _ | rect <;>
          simp only [PathEditor.handleMouseMove, hd, hs, hc]
  · intro s n
    rfl
  · intro s m
    rfl

end KokoroQuest
